import Mathlib

/-!
# Verification of the OCCT Qt viewer samples

Shallow embedding of the window-surface/framebuffer synchronization and
input-event translation logic of the two sample viewers:

* `OcctQOpenGLWidgetViewer` (`src/occt-qopenglwidget/OcctQOpenGLWidgetViewer.cpp`),
  modelled in namespace `GLW`;
* `OcctQWidgetViewer` (`src/occt-qwidget/OcctQWidgetViewer.cpp`),
  modelled in namespace `QW`.

Each widget callback becomes a pure function from the session state and the
callback's inputs (native handle, widget rectangle, device-pixel ratio and the
boolean results returned by renderer entry points) to the new session state
together with the list of observable effects the callback performs, in program
order.  Renderer-side and toolkit-side calls (display, exit requests, dialogs,
input-update entry points, repaint requests, ...) are recorded as `Effect`
values.  The device-pixel ratio is modelled as an integer scale factor, which
is exact for the claims considered here (they are about whether the scaling
multiplication is applied at all).
-/

namespace OcctSamples

/-- State of an `Aspect_NeutralWindow` as manipulated by the viewers:
the virtual flag, the native drawable handle, and the recorded size. -/
structure NeutralWindow where
  isVirtual : Bool
  nativeHandle : Nat
  width : Int
  height : Int
deriving DecidableEq, Repr

/-- Observable effects a widget callback performs, in program order.
`viewId` 0 denotes the primary view `myView`; positive ids denote sub-views. -/
inductive Effect where
  /-- `Message::SendWarning` -/
  | sendWarning (msg : String)
  /-- `Message::SendFail` / `Message_Fail` send -/
  | sendFail (msg : String)
  /-- `Message::SendInfo` (logging of diagnostic info) -/
  | sendInfo (msg : String)
  /-- `QMessageBox::critical` user-facing error dialog -/
  | criticalDialog (title msg : String)
  /-- `QApplication::exit (code)`; plain `exit()` is code 0 -/
  | appExit (code : Int)
  /-- `QWidget::update()` repaint request -/
  | requestUpdate
  /-- base-class `keyPressEvent` (default toolkit key handling) -/
  | qtBaseKeyHandler
  /-- base-class mouse event handler -/
  | qtBaseMouseHandler
  /-- base-class wheel event handler -/
  | qtBaseWheelHandler
  /-- `V3d_View::SetWindow` binding the window (handle, size) to the context -/
  | setWindowCall (handle : Nat) (w h : Int)
  /-- `AIS_InteractiveContext::Display (myViewCube, ...)` -/
  | displayViewCube
  /-- `AIS_InteractiveContext::Display` of the placeholder box shape -/
  | displayBox
  /-- `V3d_View::DiagnosticInformation` query -/
  | diagInfoQuery (isBasic : Bool)
  /-- allocation `new Aspect_NeutralWindow()` -/
  | allocWindow
  /-- allocation `new OcctQtFrameBuffer()` -/
  | allocFbo
  /-- `OpenGl_FrameBuffer::InitWrapper` (re-initialization of GPU resources) -/
  | fboInitWrapper
  /-- `OpenGl_FrameBuffer::SetupViewport` -/
  | fboSetupViewport
  /-- `V3d_View::MustBeResized` on the given view -/
  | mustBeResized (viewId : Nat)
  /-- `V3d_View::Invalidate` on the given view -/
  | invalidate (viewId : Nat)
  /-- `V3d_View::InvalidateImmediate` on the given view -/
  | invalidateImmediate (viewId : Nat)
  /-- `V3d_View::FitAll (margin, toUpdate)`; the margin is recorded as a
  fraction `marginNum / marginDen` (0.01 = 1/100) -/
  | fitAll (marginNum marginDen : Int) (toUpdate : Bool)
  /-- `AIS_ViewController::UpdateMouseButtons (pos, buttons, flags, emulated)` -/
  | updMouseButtons (x y : Int) (buttons : Nat) (flags : Nat) (emulated : Bool)
  /-- `AIS_ViewController::UpdateMousePosition` -/
  | updMousePosition (x y : Int) (buttons : Nat) (flags : Nat) (emulated : Bool)
  /-- `AIS_ViewController::UpdateZoom (Aspect_ScrollDelta (pos, delta))`;
  the zoom delta applied by the code is `angleDeltaY / 8` -/
  | updZoom (x y : Int) (angleDeltaY : Int)
  /-- `V3d_View::PickSubview (pos)` -/
  | pickSubviewCall (x y : Int)
  /-- `AIS_ViewController::FlushViewEvents (ctx, view, toHandle)`; with
  `toHandle = true` this redraws the viewer (this is the frame draw) -/
  | flushViewEvents (viewId : Nat) (toHandle : Bool)
deriving DecidableEq, Repr

/-- The effect that actually draws a frame:
`FlushViewEvents (..., ..., true)` handles pending events and redraws. -/
def isDraw : Effect → Bool
  | .flushViewEvents _ _ => true
  | _ => false

/-- Effects that are calls across the renderer-engine boundary
(the entry points listed in spec section 6). -/
def isRendererCall : Effect → Bool
  | .setWindowCall _ _ _ => true
  | .displayViewCube => true
  | .displayBox => true
  | .diagInfoQuery _ => true
  | .allocWindow => true
  | .allocFbo => true
  | .fboInitWrapper => true
  | .fboSetupViewport => true
  | .mustBeResized _ => true
  | .invalidate _ => true
  | .invalidateImmediate _ => true
  | .fitAll _ _ _ => true
  | .updMouseButtons _ _ _ _ _ => true
  | .updMousePosition _ _ _ _ _ => true
  | .updZoom _ _ _ => true
  | .pickSubviewCall _ _ => true
  | .flushViewEvents _ _ => true
  | _ => false

/-! ## The input translator (`OcctQtTools`)

The file `OcctQtTools.cpp` is not part of `src/`; per the spec it is a thin
mapping table converting toolkit-specific key/mouse/modifier codes into the
renderer's input vocabulary. -/

/-- Renderer key vocabulary as far as the handlers distinguish it. -/
inductive VKey where
  | escape
  | f
  | other
deriving DecidableEq, Repr

/-- Qt key code of the Escape key (`Qt::Key_Escape`). -/
def qtKeyEscape : Nat := 0x01000000

/-- Qt key code of the F key (`Qt::Key_F`). -/
def qtKeyF : Nat := 0x46

/-- Modelled from the spec: `OcctQtTools::qtKey2VKey` (its source file
`OcctQtTools.cpp` is not under `src/`).  The Input Translator converts the
toolkit key code into the renderer key vocabulary; the handlers only
distinguish Escape and F.  The translation depends on the key code only,
never on held modifiers. -/
def qtKey2VKey (theKey : Nat) : VKey :=
  if theKey = qtKeyEscape then .escape
  else if theKey = qtKeyF then .f
  else .other

/-- Modelled from the spec: `OcctQtTools::qtMouseButtons2VKeys` (source file
not under `src/`), the thin mapping table from the toolkit mouse-button mask
(left = bit 0, right = bit 1, middle = bit 2) to the renderer button mask. -/
def qtMouseButtons2VKeys (theButtons : Nat) : Nat :=
  (if theButtons.testBit 0 then 1 else 0)
    + (if theButtons.testBit 1 then 2 else 0)
    + (if theButtons.testBit 2 then 4 else 0)

/-- Modelled from the spec: `OcctQtTools::qtMouseModifiers2VKeys` (source file
not under `src/`), the thin mapping table from the toolkit modifier mask
(Shift = bit 25, Control = bit 26, Alt = bit 27 in Qt) to renderer key flags. -/
def qtMouseModifiers2VKeys (theModifiers : Nat) : Nat :=
  (if theModifiers.testBit 25 then 1 else 0)
    + (if theModifiers.testBit 26 then 2 else 0)
    + (if theModifiers.testBit 27 then 4 else 0)

/-! ## The wrapped framebuffer (`OcctQtFrameBuffer`)

`OcctQtFrameBuffer` overrides the three bind operations of
`OpenGl_FrameBuffer`.  Each override is modelled as the list of calls it
performs on the GL context. -/

/-- Calls a bind operation performs on the `OpenGl_Context`. -/
inductive CtxCall where
  /-- base-class `OpenGl_FrameBuffer::BindBuffer` -/
  | baseBindBuffer
  /-- base-class `OpenGl_FrameBuffer::BindDrawBuffer` -/
  | baseBindDrawBuffer
  /-- base-class `OpenGl_FrameBuffer::BindReadBuffer` -/
  | baseBindReadBuffer
  /-- `OpenGl_Context::SetFrameBufferSRGB (theIsFbo, theIsSRgb)` -/
  | setFrameBufferSRGB (theIsFbo theIsSRgb : Bool)
deriving DecidableEq, Repr

/-- `OcctQtFrameBuffer::BindBuffer`: make this FBO active in context. -/
def OcctQtFrameBuffer_BindBuffer : List CtxCall :=
  [.baseBindBuffer, .setFrameBufferSRGB true false]

/-- `OcctQtFrameBuffer::BindDrawBuffer`: make this FBO the drawing target. -/
def OcctQtFrameBuffer_BindDrawBuffer : List CtxCall :=
  [.baseBindDrawBuffer, .setFrameBufferSRGB true false]

/-- `OcctQtFrameBuffer::BindReadBuffer`: make this FBO the reading source. -/
def OcctQtFrameBuffer_BindReadBuffer : List CtxCall :=
  [.baseBindReadBuffer]

/-- A bind operation reports the framebuffer as linear-color-space-aware when
it calls `SetFrameBufferSRGB (true, false)`, asking the renderer to disable
hardware `GL_FRAMEBUFFER_SRGB` and apply sRGB gamma correction manually. -/
def reportsLinearAware (calls : List CtxCall) : Prop :=
  CtxCall.setFrameBufferSRGB true false ∈ calls

instance (calls : List CtxCall) : Decidable (reportsLinearAware calls) :=
  inferInstanceAs (Decidable (_ ∈ calls))

/-! ## The `QOpenGLWidget` variant (`OcctQOpenGLWidgetViewer`) -/

namespace GLW

open OcctSamples

/-- Session state of an `OcctQOpenGLWidgetViewer` as far as the modelled
callbacks read or write it.  `viewExists` models the handle `myView` being
non-null (it is created in the constructor and nullified only in the
destructor); `window` is the `Aspect_NeutralWindow` bound to the view
(`myView->Window()`), absent until the first `initializeGL`; `fboExists`
models `aGlCtx->DefaultFrameBuffer()` being non-null.  `windowAllocs` and
`fboAllocs` count the `new Aspect_NeutralWindow()` / `new OcctQtFrameBuffer()`
allocations performed so far.  `boxCount` / `cubeCount` count how many
placeholder boxes / view cubes have been displayed.  `subviews` lists the ids
of `myView->Subviews()`; `focusView` is `myFocusView` (none = null handle). -/
structure Viewer where
  viewExists : Bool
  window : Option NeutralWindow
  subviews : List Nat
  nextViewId : Nat
  focusView : Option Nat
  fboExists : Bool
  fboAllocs : Nat
  windowAllocs : Nat
  glInfo : String
  boxCount : Nat
  cubeCount : Nat
deriving DecidableEq, Repr

/-- The state right after the constructor `OcctQOpenGLWidgetViewer`: the view
handle exists but no window is bound yet (the window is created later within
the `initializeGL` callback), no framebuffer is wrapped, nothing displayed. -/
def initialViewer : Viewer :=
  { viewExists := true
    window := none
    subviews := []
    nextViewId := 1
    focusView := none
    fboExists := false
    fboAllocs := 0
    windowAllocs := 0
    glInfo := ""
    boxCount := 0
    cubeCount := 0 }

/-- `dumpGlInfo (theIsBasic, theToPrint)`: queries the view's diagnostic
information (`diag` is the formatted string the renderer reports), sends it to
the message log only when `theToPrint`, and stores it in `myGlInfo`. -/
def dumpGlInfo (s : Viewer) (diag : String) (theIsBasic theToPrint : Bool) :
    Viewer × List Effect :=
  ({ s with glInfo := diag },
   Effect.diagInfoQuery theIsBasic ::
     (if theToPrint then [Effect.sendInfo diag] else []))

/-- Host-side inputs of one `initializeGL` run: the widget rectangle size,
the device-pixel ratio, the native drawable handle obtained from the toolkit,
whether `OpenGl_Context::Init` succeeds, and the diagnostic info string the
renderer reports. -/
structure InitIn where
  rectW : Int
  rectH : Int
  pixelRatio : Int
  nativeWin : Nat
  glCtxInitOk : Bool
  diagInfo : String
deriving DecidableEq, Repr

/-- `OcctQOpenGLWidgetViewer::initializeGL`: compute the device-pixel view
size; wrap the GL context (fatal dialog + `QApplication::exit (1)` on
failure); if a neutral window already exists, update its handle and size and
rebind it, else allocate a new virtual window, set handle and size, bind it
and display the view cube; finally display the placeholder box (this display
is unconditional in the source). -/
def initializeGL (s : Viewer) (i : InitIn) : Viewer × List Effect :=
  let vw := i.rectW * i.pixelRatio
  let vh := i.rectH * i.pixelRatio
  if i.glCtxInitOk = true then
    match s.window with
    | some w =>
        let w' : NeutralWindow :=
          { w with nativeHandle := i.nativeWin, width := vw, height := vh }
        let d := dumpGlInfo { s with window := some w' } i.diagInfo true true
        ({ d.1 with boxCount := d.1.boxCount + 1 },
         Effect.setWindowCall i.nativeWin vw vh :: d.2 ++ [Effect.displayBox])
    | none =>
        let w' : NeutralWindow :=
          { isVirtual := true, nativeHandle := i.nativeWin, width := vw, height := vh }
        let d := dumpGlInfo
          { s with window := some w', windowAllocs := s.windowAllocs + 1 }
          i.diagInfo true true
        ({ d.1 with cubeCount := d.1.cubeCount + 1, boxCount := d.1.boxCount + 1 },
         Effect.allocWindow :: Effect.setWindowCall i.nativeWin vw vh ::
           d.2 ++ [Effect.displayViewCube, Effect.displayBox])
  else
    (s, [Effect.sendFail "Error: OpenGl_Context is unable to wrap OpenGL context",
         Effect.criticalDialog "Failure" "OpenGl_Context is unable to wrap OpenGL context",
         Effect.appExit 1])

/-- Host-side inputs of one `paintGL` run: the freshly recomputed native
handle, the inputs a rerun of `initializeGL` would consume, whether
`InitWrapper` succeeds, the wrapped framebuffer's actual viewport size
(`GetVPSize`, in device pixels), and the diagnostic info string. -/
structure PaintIn where
  nativeWin : Nat
  rectW : Int
  rectH : Int
  pixelRatio : Int
  glCtxInitOk : Bool
  initDiagInfo : String
  wrapOk : Bool
  fboVPW : Int
  fboVPH : Int
  diagInfo : String
deriving DecidableEq, Repr

/-- The `InitIn` a `paintGL` rerun of `initializeGL` consumes; the native
handle is the one `paintGL` just recomputed. -/
def PaintIn.toInitIn (i : PaintIn) : InitIn :=
  { rectW := i.rectW
    rectH := i.rectH
    pixelRatio := i.pixelRatio
    nativeWin := i.nativeWin
    glCtxInitOk := i.glCtxInitOk
    diagInfo := i.initDiagInfo }

/-- `OcctQOpenGLWidgetViewer::paintGL`.  Guard (no view or no window): no-op.
Guard (recomputed native handle differs from the window's recorded handle):
warn and rerun `initializeGL`, drawing nothing.  Otherwise lazily allocate the
wrapped framebuffer if absent, re-initialize it via `InitWrapper` (fatal
dialog + `QApplication::exit (1)` on failure, no draw), compare the
framebuffer's viewport size to the window's recorded size and on mismatch
update the recorded size, mark the primary view and every sub-view as
must-be-resized and invalidated (with a viewport setup per sub-view) and
re-derive the diagnostic info without printing; finally invalidate the
focused view immediately and flush view events with redraw. -/
def paintGL (s : Viewer) (i : PaintIn) : Viewer × List Effect :=
  if s.viewExists = true then
    match s.window with
    | none => (s, [])
    | some w =>
      if w.nativeHandle = i.nativeWin then
        let created : Bool := !s.fboExists
        let s1 : Viewer :=
          { s with fboExists := true
                   fboAllocs := s.fboAllocs + (if s.fboExists then 0 else 1) }
        let eAlloc : List Effect := if created then [Effect.allocFbo] else []
        if i.wrapOk = true then
          let resize :=
            if i.fboVPW = w.width ∧ i.fboVPH = w.height then (s1, ([] : List Effect))
            else
              let w' : NeutralWindow := { w with width := i.fboVPW, height := i.fboVPH }
              let d := dumpGlInfo { s1 with window := some w' } i.diagInfo true false
              (d.1,
               Effect.mustBeResized 0 :: Effect.invalidate 0 :: d.2
                 ++ s.subviews.flatMap (fun vid =>
                      [Effect.mustBeResized vid, Effect.invalidate vid,
                       Effect.fboSetupViewport]))
          let focusId := s.focusView.getD 0
          (resize.1,
           eAlloc ++ Effect.fboInitWrapper :: resize.2
             ++ [Effect.invalidateImmediate focusId,
                 Effect.flushViewEvents focusId true])
        else
          (s1, eAlloc ++
            [Effect.fboInitWrapper,
             Effect.sendFail "Default FBO wrapper creation failed",
             Effect.criticalDialog "Failure" "Default FBO wrapper creation failed",
             Effect.appExit 1])
      else
        let r := initializeGL s i.toInitIn
        (r.1, Effect.sendWarning "Native window handle has changed by QOpenGLWidget!" :: r.2)
  else (s, [])

/-- Host-side inputs of one key-press event: the Qt key code, the held
modifier mask (unused by the handler, kept to state modifier-independence). -/
structure KeyIn where
  key : Nat
  modifiers : Nat
deriving DecidableEq, Repr

/-- `OcctQOpenGLWidgetViewer::keyPressEvent`: no-op when the view handle is
null; Escape requests application exit; F fits all visible content with a
0.01 margin and requests a repaint; every other key goes to the base class. -/
def keyPressEvent (s : Viewer) (i : KeyIn) : Viewer × List Effect :=
  if s.viewExists = true then
    match qtKey2VKey i.key with
    | .escape => (s, [Effect.appExit 0])
    | .f => (s, [Effect.fitAll 1 100 false, Effect.requestUpdate])
    | .other => (s, [Effect.qtBaseKeyHandler])
  else (s, [])

/-- Host-side inputs of one mouse event: the toolkit-reported logical
position, the device-pixel ratio, the held buttons and modifiers, and the
boolean the renderer's update entry point returns (whether the update changed
rendering state). -/
structure MouseIn where
  posX : Int
  posY : Int
  pixelRatio : Int
  buttons : Nat
  modifiers : Nat
  updAccepted : Bool
deriving DecidableEq, Repr

/-- `OcctQOpenGLWidgetViewer::mousePressEvent`: base handler first; no-op when
the view handle is null; otherwise forward the device-pixel-scaled position
with translated buttons and modifiers to `UpdateMouseButtons`; request a
repaint iff that returned true. -/
def mousePressEvent (s : Viewer) (i : MouseIn) : Viewer × List Effect :=
  if s.viewExists = true then
    (s, Effect.qtBaseMouseHandler ::
      Effect.updMouseButtons (i.posX * i.pixelRatio) (i.posY * i.pixelRatio)
        (qtMouseButtons2VKeys i.buttons) (qtMouseModifiers2VKeys i.modifiers) false ::
      (if i.updAccepted then [Effect.requestUpdate] else []))
  else (s, [Effect.qtBaseMouseHandler])

/-- `OcctQOpenGLWidgetViewer::mouseReleaseEvent`: same shape as the press
handler (the held-buttons mask it forwards is the post-release one Qt
reports). -/
def mouseReleaseEvent (s : Viewer) (i : MouseIn) : Viewer × List Effect :=
  if s.viewExists = true then
    (s, Effect.qtBaseMouseHandler ::
      Effect.updMouseButtons (i.posX * i.pixelRatio) (i.posY * i.pixelRatio)
        (qtMouseButtons2VKeys i.buttons) (qtMouseModifiers2VKeys i.modifiers) false ::
      (if i.updAccepted then [Effect.requestUpdate] else []))
  else (s, [Effect.qtBaseMouseHandler])

/-- `OcctQOpenGLWidgetViewer::mouseMoveEvent`: base handler first; no-op when
the view handle is null; otherwise forward the device-pixel-scaled position
with translated buttons and modifiers to `UpdateMousePosition`; request a
repaint iff that returned true. -/
def mouseMoveEvent (s : Viewer) (i : MouseIn) : Viewer × List Effect :=
  if s.viewExists = true then
    (s, Effect.qtBaseMouseHandler ::
      Effect.updMousePosition (i.posX * i.pixelRatio) (i.posY * i.pixelRatio)
        (qtMouseButtons2VKeys i.buttons) (qtMouseModifiers2VKeys i.modifiers) false ::
      (if i.updAccepted then [Effect.requestUpdate] else []))
  else (s, [Effect.qtBaseMouseHandler])

/-- Host-side inputs of one wheel event: the toolkit-reported logical
position, the device-pixel ratio, the vertical angle delta, the result of
`PickSubview` at the scaled position (none = null handle), and the boolean
`UpdateZoom` returns. -/
structure WheelIn where
  posX : Int
  posY : Int
  pixelRatio : Int
  angleDeltaY : Int
  pickResult : Option Nat
  zoomChanged : Bool
deriving DecidableEq, Repr

/-- `OcctQOpenGLWidgetViewer::wheelEvent`: base handler first; no-op when the
view handle is null.  If sub-views exist, pick the sub-view under the scaled
position; if one is picked and it differs from the focused view, switch focus
to it (`OnSubviewChanged` sets `myFocusView`) and request a repaint, applying
no zoom.  Otherwise forward the scroll as a zoom-about-point update and
request a repaint iff the renderer reports a state change. -/
def wheelEvent (s : Viewer) (i : WheelIn) : Viewer × List Effect :=
  if s.viewExists = true then
    let px := i.posX * i.pixelRatio
    let py := i.posY * i.pixelRatio
    let zoomPath : List Effect :=
      Effect.updZoom px py i.angleDeltaY ::
        (if i.zoomChanged then [Effect.requestUpdate] else [])
    if s.subviews = [] then
      (s, Effect.qtBaseWheelHandler :: zoomPath)
    else
      match i.pickResult with
      | some v =>
        if s.focusView = some v then
          (s, Effect.qtBaseWheelHandler :: Effect.pickSubviewCall px py :: zoomPath)
        else
          ({ s with focusView := some v },
           [Effect.qtBaseWheelHandler, Effect.pickSubviewCall px py,
            Effect.requestUpdate])
      | none =>
        (s, Effect.qtBaseWheelHandler :: Effect.pickSubviewCall px py :: zoomPath)
  else (s, [Effect.qtBaseWheelHandler])

/-- `MyMainWindow::splitSubviews` (`src/occt-qopenglwidget/main.cpp`): when
sub-views exist, remove them and focus the primary view (id 0); otherwise
create two fresh sub-views splitting the window and focus the first; in both
cases invalidate the primary view and request a repaint. -/
def splitSubviews (s : Viewer) : Viewer × List Effect :=
  if s.subviews = [] then
    ({ s with subviews := [s.nextViewId, s.nextViewId + 1]
              nextViewId := s.nextViewId + 2
              focusView := some s.nextViewId },
     [Effect.invalidate 0, Effect.requestUpdate])
  else
    ({ s with subviews := [], focusView := some 0 },
     [Effect.invalidate 0, Effect.requestUpdate])

/-- One toolkit callback delivered to the widget, with its inputs. -/
inductive Callback where
  | init (i : InitIn)
  | paint (i : PaintIn)
  | keyPress (i : KeyIn)
  | mousePress (i : MouseIn)
  | mouseRelease (i : MouseIn)
  | mouseMove (i : MouseIn)
  | wheel (i : WheelIn)
  | split
deriving Repr

/-- Dispatch one callback to its handler. -/
def step (s : Viewer) : Callback → Viewer × List Effect
  | .init i => initializeGL s i
  | .paint i => paintGL s i
  | .keyPress i => keyPressEvent s i
  | .mousePress i => mousePressEvent s i
  | .mouseRelease i => mouseReleaseEvent s i
  | .mouseMove i => mouseMoveEvent s i
  | .wheel i => wheelEvent s i
  | .split => splitSubviews s

/-- Run a sequence of callbacks from a state. -/
def runCallbacks (s : Viewer) : List Callback → Viewer
  | [] => s
  | c :: cs => runCallbacks (step s c).1 cs

end GLW

/-! ## The plain-`QWidget` variant (`OcctQWidgetViewer`)

This variant owns the GL context itself, has no wrapped framebuffer, and —
unlike the `QOpenGLWidget` variant — never reads the device-pixel ratio: all
sizes and positions it passes to the renderer are the toolkit's logical
coordinates, unscaled. -/

namespace QW

/-- Session state of an `OcctQWidgetViewer` (no framebuffer fields: this
variant draws into the native window directly). -/
structure Viewer where
  viewExists : Bool
  window : Option NeutralWindow
  subviews : List Nat
  focusView : Option Nat
  windowAllocs : Nat
  glInfo : String
  boxCount : Nat
  cubeCount : Nat
deriving DecidableEq, Repr

/-- `dumpGlInfo` of the QWidget variant (same logic as the other variant). -/
def dumpGlInfo (s : Viewer) (diag : String) (theIsBasic theToPrint : Bool) :
    Viewer × List Effect :=
  ({ s with glInfo := diag },
   Effect.diagInfoQuery theIsBasic ::
     (if theToPrint then [Effect.sendInfo diag] else []))

/-- Inputs of one `OcctQWidgetViewer::initializeGL` run: the widget rectangle
size (logical coordinates; this variant reads no device-pixel ratio), the
native handle, and the reported diagnostic info. -/
structure InitIn where
  rectW : Int
  rectH : Int
  nativeWin : Nat
  diagInfo : String
deriving DecidableEq, Repr

/-- `OcctQWidgetViewer::initializeGL`: like the other variant but with the
logical rectangle size (no device-pixel scaling), no GL-context wrap step
(hence no failure path), and `SetWindow` without an external GL context. -/
def initializeGL (s : Viewer) (i : InitIn) : Viewer × List Effect :=
  match s.window with
  | some w =>
      let w' : NeutralWindow :=
        { w with nativeHandle := i.nativeWin, width := i.rectW, height := i.rectH }
      let d := dumpGlInfo { s with window := some w' } i.diagInfo true true
      ({ d.1 with boxCount := d.1.boxCount + 1 },
       Effect.setWindowCall i.nativeWin i.rectW i.rectH :: d.2 ++ [Effect.displayBox])
  | none =>
      let w' : NeutralWindow :=
        { isVirtual := true, nativeHandle := i.nativeWin, width := i.rectW, height := i.rectH }
      let d := dumpGlInfo
        { s with window := some w', windowAllocs := s.windowAllocs + 1 }
        i.diagInfo true true
      ({ d.1 with cubeCount := d.1.cubeCount + 1, boxCount := d.1.boxCount + 1 },
       Effect.allocWindow :: Effect.setWindowCall i.nativeWin i.rectW i.rectH ::
         d.2 ++ [Effect.displayViewCube, Effect.displayBox])

/-- Inputs of one `OcctQWidgetViewer::paintEvent` run: the recomputed native
handle, the widget rectangle size (logical), and the diagnostic info strings.
The ambient device-pixel ratio is never read by this handler. -/
structure PaintIn where
  nativeWin : Nat
  rectW : Int
  rectH : Int
  initDiagInfo : String
  diagInfo : String
deriving DecidableEq, Repr

/-- The `InitIn` a `paintEvent` rerun of `initializeGL` consumes. -/
def PaintIn.toInitIn (i : PaintIn) : InitIn :=
  { rectW := i.rectW, rectH := i.rectH, nativeWin := i.nativeWin,
    diagInfo := i.initDiagInfo }

/-- `OcctQWidgetViewer::paintEvent`.  Guard (no view or no window): no-op.
Guard (handle mismatch): warn and rerun `initializeGL`, drawing nothing.
Otherwise compare the widget's logical rectangle size to the window's
recorded size; on mismatch update the recorded size, mark the primary view
and every sub-view must-be-resized and invalidated, re-derive diagnostic info
without printing.  Finally invalidate the focused view immediately and flush
view events with redraw. -/
def paintEvent (s : Viewer) (i : PaintIn) : Viewer × List Effect :=
  if s.viewExists = true then
    match s.window with
    | none => (s, [])
    | some w =>
      if w.nativeHandle = i.nativeWin then
        let resize :=
          if i.rectW = w.width ∧ i.rectH = w.height then (s, ([] : List Effect))
          else
            let w' : NeutralWindow := { w with width := i.rectW, height := i.rectH }
            let d := dumpGlInfo { s with window := some w' } i.diagInfo true false
            (d.1,
             Effect.mustBeResized 0 :: Effect.invalidate 0 :: d.2
               ++ s.subviews.flatMap (fun vid =>
                    [Effect.mustBeResized vid, Effect.invalidate vid]))
        let focusId := s.focusView.getD 0
        (resize.1,
         resize.2 ++ [Effect.invalidateImmediate focusId,
                      Effect.flushViewEvents focusId true])
      else
        let r := initializeGL s i.toInitIn
        (r.1, Effect.sendWarning "Native window handle has changed by QWidget!" :: r.2)
  else (s, [])

/-- `OcctQWidgetViewer::keyPressEvent`: identical logic to the other
variant's key handler. -/
def keyPressEvent (s : Viewer) (i : GLW.KeyIn) : Viewer × List Effect :=
  if s.viewExists = true then
    match qtKey2VKey i.key with
    | .escape => (s, [Effect.appExit 0])
    | .f => (s, [Effect.fitAll 1 100 false, Effect.requestUpdate])
    | .other => (s, [Effect.qtBaseKeyHandler])
  else (s, [])

/-- `OcctQWidgetViewer::mousePressEvent`: base handler first; no-op when the
view handle is null; otherwise forward the toolkit-reported logical position
(NOT scaled by the device-pixel ratio — this variant never reads it) with
translated buttons and modifiers; request a repaint iff the renderer reports
a state change.  The input reuses `GLW.MouseIn`; its `pixelRatio` field is the
ambient display ratio, which this handler ignores. -/
def mousePressEvent (s : Viewer) (i : GLW.MouseIn) : Viewer × List Effect :=
  if s.viewExists = true then
    (s, Effect.qtBaseMouseHandler ::
      Effect.updMouseButtons i.posX i.posY
        (qtMouseButtons2VKeys i.buttons) (qtMouseModifiers2VKeys i.modifiers) false ::
      (if i.updAccepted then [Effect.requestUpdate] else []))
  else (s, [Effect.qtBaseMouseHandler])

/-- `OcctQWidgetViewer::mouseReleaseEvent`: same shape as the press handler. -/
def mouseReleaseEvent (s : Viewer) (i : GLW.MouseIn) : Viewer × List Effect :=
  if s.viewExists = true then
    (s, Effect.qtBaseMouseHandler ::
      Effect.updMouseButtons i.posX i.posY
        (qtMouseButtons2VKeys i.buttons) (qtMouseModifiers2VKeys i.modifiers) false ::
      (if i.updAccepted then [Effect.requestUpdate] else []))
  else (s, [Effect.qtBaseMouseHandler])

/-- `OcctQWidgetViewer::mouseMoveEvent`: forwards the unscaled logical
position to `UpdateMousePosition`. -/
def mouseMoveEvent (s : Viewer) (i : GLW.MouseIn) : Viewer × List Effect :=
  if s.viewExists = true then
    (s, Effect.qtBaseMouseHandler ::
      Effect.updMousePosition i.posX i.posY
        (qtMouseButtons2VKeys i.buttons) (qtMouseModifiers2VKeys i.modifiers) false ::
      (if i.updAccepted then [Effect.requestUpdate] else []))
  else (s, [Effect.qtBaseMouseHandler])

/-- `OcctQWidgetViewer::wheelEvent`: like the other variant's wheel handler
but with the unscaled logical position. -/
def wheelEvent (s : Viewer) (i : GLW.WheelIn) : Viewer × List Effect :=
  if s.viewExists = true then
    let zoomPath : List Effect :=
      Effect.updZoom i.posX i.posY i.angleDeltaY ::
        (if i.zoomChanged then [Effect.requestUpdate] else [])
    if s.subviews = [] then
      (s, Effect.qtBaseWheelHandler :: zoomPath)
    else
      match i.pickResult with
      | some v =>
        if s.focusView = some v then
          (s, Effect.qtBaseWheelHandler :: Effect.pickSubviewCall i.posX i.posY :: zoomPath)
        else
          ({ s with focusView := some v },
           [Effect.qtBaseWheelHandler, Effect.pickSubviewCall i.posX i.posY,
            Effect.requestUpdate])
      | none =>
        (s, Effect.qtBaseWheelHandler :: Effect.pickSubviewCall i.posX i.posY :: zoomPath)
  else (s, [Effect.qtBaseWheelHandler])

end QW

/-! ## Definitions following the spec's words (for comparison with the code)

These two definitions are written from the spec, not from the source: the
spec's glossary defines the device-pixel ratio as the scale factor between
logical UI coordinates and actual framebuffer pixels, and sections 4.3 / 8
require positions and sizes forwarded to the renderer to be the logical
values scaled by that ratio. -/

/-- Spec's words: the host's actual device-pixel size is the logical widget
size scaled by the current device-pixel ratio. -/
def spec_devicePixelSize (logicalW logicalH ratio : Int) : Int × Int :=
  (logicalW * ratio, logicalH * ratio)

/-- Spec's words: the position forwarded to the renderer equals the
toolkit-reported logical position scaled by the device-pixel ratio. -/
def spec_scaledPos (x y ratio : Int) : Int × Int :=
  (x * ratio, y * ratio)

/-- The logical positions recorded in the pointer-forwarding effects of a
callback's effect list (the arguments of `UpdateMouseButtons` and
`UpdateMousePosition` calls). -/
def forwardedPositions (effects : List Effect) : List (Int × Int) :=
  effects.filterMap fun e =>
    match e with
    | .updMouseButtons x y _ _ _ => some (x, y)
    | .updMousePosition x y _ _ _ => some (x, y)
    | _ => none

/-- An application-exit request of any code. -/
def isExit : Effect → Bool
  | .appExit _ => true
  | _ => false

/-- An abnormal (non-zero-equivalent) application-exit request. -/
def isFatalExit : Effect → Bool
  | .appExit c => c != 0
  | _ => false

/-- A user-facing error dialog. -/
def isDialog : Effect → Bool
  | .criticalDialog _ _ => true
  | _ => false

/-- A message actually printed to the log (info channel). -/
def isInfoLog : Effect → Bool
  | .sendInfo _ => true
  | _ => false

/-- A zoom update forwarded to the renderer. -/
def isZoom : Effect → Bool
  | .updZoom _ _ _ => true
  | _ => false

/-- A mark-as-needing-re-layout call on some view. -/
def isResizeMark : Effect → Bool
  | .mustBeResized _ => true
  | _ => false

/-- Number of application-exit requests in an effect list. -/
def countExitRequests (l : List Effect) : Nat :=
  l.countP (fun e => isExit e)

end OcctSamples

/-! ## Theorems -/

namespace OcctSamples

/-- Claim C6 counterexample: the claim asserts that all three bind operations
of the wrapped framebuffer report linear-color-space awareness; but
`OcctQtFrameBuffer::BindReadBuffer` only invokes the base-class bind and never
calls `SetFrameBufferSRGB`, so the bind-as-reading-source operation does not
report it. -/
theorem C6_bindReadBuffer_not_linear_aware :
    ¬ reportsLinearAware OcctQtFrameBuffer_BindReadBuffer := by
  decide

/-- Claim C6 (amended): the wrapped framebuffer reports itself as
linear-color-space-aware (calls `SetFrameBufferSRGB (true, false)`, making the
renderer perform gamma correction itself) when binding as the active target
and when binding as the drawing target, but not when binding as the reading
source, where only the base-class bind is performed. -/
theorem C6_bind_linear_aware_amended :
    reportsLinearAware OcctQtFrameBuffer_BindBuffer ∧
    reportsLinearAware OcctQtFrameBuffer_BindDrawBuffer ∧
    OcctQtFrameBuffer_BindReadBuffer = [CtxCall.baseBindReadBuffer] := by
  decide

/-- Claim C5 counterexample: the claim asserts the placeholder box solid is
displayed only on the first-ever run of the surface-creation path; but
`initializeGL` displays a new box shape unconditionally at the end of every
run.  Running the path a second time (surface object already exists, same
handle 7, size 800×600) displays the box again: after two runs two boxes have
been displayed, and the second run's effects contain the box display. -/
theorem C5_reentry_displays_box_again :
    Effect.displayBox ∈
      (GLW.initializeGL
        (GLW.initializeGL GLW.initialViewer ⟨800, 600, 1, 7, true, "gl"⟩).1
        ⟨800, 600, 1, 7, true, "gl"⟩).2 ∧
    (GLW.initializeGL
        (GLW.initializeGL GLW.initialViewer ⟨800, 600, 1, 7, true, "gl"⟩).1
        ⟨800, 600, 1, 7, true, "gl"⟩).1.boxCount = 2 := by
  decide

/-- Claim C5 (amended): in both variants, on the first-ever run of the
surface-creation path (no surface object yet) a new surface is allocated,
marked virtual, given the native handle and the size the variant measures
(device-pixel in the `QOpenGLWidget` variant, logical in the `QWidget`
variant), and the view-cube decoration is displayed; on re-entry the existing
surface's handle and size are updated and rebound to the context without
displaying the view cube again.  The placeholder box solid, however, is
displayed on every run of the path, first and re-entry alike (in both
sources its display block is unconditional). -/
theorem C5_first_creation_amended :
    (∀ (s : GLW.Viewer) (i : GLW.InitIn), i.glCtxInitOk = true →
      (s.window = none →
        (GLW.initializeGL s i).1.window =
          some ⟨true, i.nativeWin, i.rectW * i.pixelRatio, i.rectH * i.pixelRatio⟩ ∧
        Effect.allocWindow ∈ (GLW.initializeGL s i).2 ∧
        Effect.displayViewCube ∈ (GLW.initializeGL s i).2 ∧
        Effect.displayBox ∈ (GLW.initializeGL s i).2) ∧
      (∀ w, s.window = some w →
        (GLW.initializeGL s i).1.window =
          some { w with nativeHandle := i.nativeWin,
                        width := i.rectW * i.pixelRatio,
                        height := i.rectH * i.pixelRatio } ∧
        Effect.setWindowCall i.nativeWin (i.rectW * i.pixelRatio) (i.rectH * i.pixelRatio)
          ∈ (GLW.initializeGL s i).2 ∧
        Effect.allocWindow ∉ (GLW.initializeGL s i).2 ∧
        Effect.displayViewCube ∉ (GLW.initializeGL s i).2 ∧
        Effect.displayBox ∈ (GLW.initializeGL s i).2)) ∧
    (∀ (q : QW.Viewer) (i : QW.InitIn),
      (q.window = none →
        (QW.initializeGL q i).1.window =
          some ⟨true, i.nativeWin, i.rectW, i.rectH⟩ ∧
        Effect.allocWindow ∈ (QW.initializeGL q i).2 ∧
        Effect.displayViewCube ∈ (QW.initializeGL q i).2 ∧
        Effect.displayBox ∈ (QW.initializeGL q i).2) ∧
      (∀ w, q.window = some w →
        (QW.initializeGL q i).1.window =
          some { w with nativeHandle := i.nativeWin,
                        width := i.rectW, height := i.rectH } ∧
        Effect.setWindowCall i.nativeWin i.rectW i.rectH ∈ (QW.initializeGL q i).2 ∧
        Effect.allocWindow ∉ (QW.initializeGL q i).2 ∧
        Effect.displayViewCube ∉ (QW.initializeGL q i).2 ∧
        Effect.displayBox ∈ (QW.initializeGL q i).2)) := by
  constructor
  · intro s i hok
    constructor
    · intro hw
      simp [GLW.initializeGL, GLW.dumpGlInfo, hok, hw]
    · intro w hw
      simp [GLW.initializeGL, GLW.dumpGlInfo, hok, hw]
  · intro q i
    constructor
    · intro hw
      simp [QW.initializeGL, QW.dumpGlInfo, hw]
    · intro w hw
      simp [QW.initializeGL, QW.dumpGlInfo, hw]

/-- Claim C5 witness: the amended theorem applied at concrete first-ever runs
of both variants (fresh sessions, handle 7, size 800×600, ratio 1) and at a
concrete re-entry of the `QWidget` variant. -/
theorem C5_first_creation_amended_witness :
    (GLW.initializeGL GLW.initialViewer ⟨800, 600, 1, 7, true, "gl"⟩).1.window =
      some ⟨true, 7, 800, 600⟩ ∧
    Effect.displayViewCube ∈
      (GLW.initializeGL GLW.initialViewer ⟨800, 600, 1, 7, true, "gl"⟩).2 ∧
    (QW.initializeGL ⟨true, none, [], none, 0, "", 0, 0⟩ ⟨800, 600, 7, "gl"⟩).1.window =
      some ⟨true, 7, 800, 600⟩ ∧
    Effect.displayViewCube ∉
      (QW.initializeGL
        ⟨true, some ⟨true, 7, 800, 600⟩, [], none, 1, "", 1, 1⟩
        ⟨800, 600, 9, "gl"⟩).2 := by
  have h := C5_first_creation_amended.1 GLW.initialViewer ⟨800, 600, 1, 7, true, "gl"⟩
    rfl
  have h1 := h.1 rfl
  have hq := (C5_first_creation_amended.2 ⟨true, none, [], none, 0, "", 0, 0⟩
    ⟨800, 600, 7, "gl"⟩).1 rfl
  have hq2 := (C5_first_creation_amended.2
    ⟨true, some ⟨true, 7, 800, 600⟩, [], none, 1, "", 1, 1⟩
    ⟨800, 600, 9, "gl"⟩).2 ⟨true, 7, 800, 600⟩ rfl
  exact ⟨by simpa using h1.1, h1.2.2.1, hq.1, hq2.2.2.2.1⟩

/-- Helper: the surface-creation path never draws a frame (its effect list
contains no `FlushViewEvents`). -/
theorem GLW.initializeGL_no_draw (s : GLW.Viewer) (i : GLW.InitIn) :
    (GLW.initializeGL s i).2.any isDraw = false := by
  unfold GLW.initializeGL GLW.dumpGlInfo
  cases hok : i.glCtxInitOk <;> cases hw : s.window <;> simp [isDraw]

/-- Helper: the `QWidget` variant's surface-creation path never draws a frame
either. -/
theorem QW.initializeGL_never_draws (s : QW.Viewer) (i : QW.InitIn) :
    (QW.initializeGL s i).2.any isDraw = false := by
  unfold QW.initializeGL QW.dumpGlInfo
  cases hw : s.window <;> simp [isDraw]

/-- Claim C1: in every paint callback of either variant where the view and
its surface are bound, if the freshly recomputed native handle differs from
the handle recorded in the surface, the callback warns and reruns the
surface-creation path `initializeGL` with the new handle (the rerun's inputs
carry `i.nativeWin`) and no frame is drawn in that callback; if the handles
match, drawing proceeds — in the `QOpenGLWidget` variant past the guard to
the framebuffer stage, with the frame drawn exactly when the framebuffer
re-initialization succeeds, and in the `QWidget` variant (which has no
framebuffer stage) unconditionally. -/
theorem C1_paint_handle_guard :
    (∀ (s : GLW.Viewer) (i : GLW.PaintIn) (w : NeutralWindow),
      s.viewExists = true → s.window = some w →
      (w.nativeHandle ≠ i.nativeWin →
        GLW.paintGL s i =
          ((GLW.initializeGL s i.toInitIn).1,
           Effect.sendWarning "Native window handle has changed by QOpenGLWidget!" ::
             (GLW.initializeGL s i.toInitIn).2) ∧
        i.toInitIn.nativeWin = i.nativeWin ∧
        (GLW.paintGL s i).2.any isDraw = false) ∧
      (w.nativeHandle = i.nativeWin →
        ((GLW.paintGL s i).2.any isDraw = true ↔ i.wrapOk = true))) ∧
    (∀ (q : QW.Viewer) (i : QW.PaintIn) (w : NeutralWindow),
      q.viewExists = true → q.window = some w →
      (w.nativeHandle ≠ i.nativeWin →
        QW.paintEvent q i =
          ((QW.initializeGL q i.toInitIn).1,
           Effect.sendWarning "Native window handle has changed by QWidget!" ::
             (QW.initializeGL q i.toInitIn).2) ∧
        i.toInitIn.nativeWin = i.nativeWin ∧
        (QW.paintEvent q i).2.any isDraw = false) ∧
      (w.nativeHandle = i.nativeWin →
        (QW.paintEvent q i).2.any isDraw = true)) := by
  constructor
  · intro s i w hv hw
    constructor
    · intro hne
      refine ⟨?_, rfl, ?_⟩
      · simp [GLW.paintGL, hv, hw, hne]
      · simp only [GLW.paintGL, hv, hw, if_neg hne, if_pos rfl]
        simp [isDraw, GLW.initializeGL_no_draw]
    · intro heq
      cases hwrap : i.wrapOk
      · simp only [GLW.paintGL, hv, hw, heq, if_pos rfl, hwrap]
        cases hfbo : s.fboExists <;> simp [isDraw]
      · simp only [GLW.paintGL, hv, hw, heq, if_pos rfl, hwrap]
        cases hfbo : s.fboExists <;> simp [isDraw]
  · intro q i w hv hw
    constructor
    · intro hne
      refine ⟨?_, rfl, ?_⟩
      · simp [QW.paintEvent, hv, hw, hne]
      · simp only [QW.paintEvent, hv, hw, if_neg hne, if_pos rfl]
        simp [isDraw, QW.initializeGL_never_draws]
    · intro heq
      simp only [QW.paintEvent, hv, hw, heq, if_pos rfl]
      split <;> simp_all [isDraw]

/-- Claim C1 witness: concrete paint callbacks of both variants — with a
changed handle (recorded 7, recomputed 9) each variant reruns surface
creation and draws nothing; with the matching handle 7 (and, in the
`QOpenGLWidget` variant, a successful framebuffer wrap) each draws a frame. -/
theorem C1_paint_handle_guard_witness :
    ((GLW.paintGL
        ⟨true, some ⟨true, 7, 800, 600⟩, [], 1, none, false, 0, 1, "", 1, 1⟩
        ⟨9, 800, 600, 1, true, "g", true, 800, 600, "g"⟩).2.any isDraw = false) ∧
    ((GLW.paintGL
        ⟨true, some ⟨true, 7, 800, 600⟩, [], 1, none, false, 0, 1, "", 1, 1⟩
        ⟨7, 800, 600, 1, true, "g", true, 800, 600, "g"⟩).2.any isDraw = true) ∧
    ((QW.paintEvent
        ⟨true, some ⟨true, 7, 800, 600⟩, [], none, 1, "", 1, 1⟩
        ⟨9, 800, 600, "g", "g"⟩).2.any isDraw = false) ∧
    ((QW.paintEvent
        ⟨true, some ⟨true, 7, 800, 600⟩, [], none, 1, "", 1, 1⟩
        ⟨7, 800, 600, "g", "g"⟩).2.any isDraw = true) := by
  refine ⟨?_, ?_, ?_, ?_⟩
  · exact ((C1_paint_handle_guard.1
      ⟨true, some ⟨true, 7, 800, 600⟩, [], 1, none, false, 0, 1, "", 1, 1⟩
      ⟨9, 800, 600, 1, true, "g", true, 800, 600, "g"⟩
      ⟨true, 7, 800, 600⟩ rfl rfl).1 (by decide)).2.2
  · exact ((C1_paint_handle_guard.1
      ⟨true, some ⟨true, 7, 800, 600⟩, [], 1, none, false, 0, 1, "", 1, 1⟩
      ⟨7, 800, 600, 1, true, "g", true, 800, 600, "g"⟩
      ⟨true, 7, 800, 600⟩ rfl rfl).2 rfl).mpr rfl
  · exact ((C1_paint_handle_guard.2
      ⟨true, some ⟨true, 7, 800, 600⟩, [], none, 1, "", 1, 1⟩
      ⟨9, 800, 600, "g", "g"⟩
      ⟨true, 7, 800, 600⟩ rfl rfl).1 (by decide)).2.2
  · exact (C1_paint_handle_guard.2
      ⟨true, some ⟨true, 7, 800, 600⟩, [], none, 1, "", 1, 1⟩
      ⟨7, 800, 600, "g", "g"⟩
      ⟨true, 7, 800, 600⟩ rfl rfl).2 rfl

/-- Helper: the surface-creation path requests an abnormal exit exactly when
wrapping the GL context fails. -/
theorem GLW.init_fatal_eq (s : GLW.Viewer) (i : GLW.InitIn) :
    (GLW.initializeGL s i).2.any isFatalExit = !i.glCtxInitOk := by
  unfold GLW.initializeGL GLW.dumpGlInfo
  cases hok : i.glCtxInitOk <;> cases hw : s.window <;>
    simp [isFatalExit]

/-- Helper: the surface-creation path shows a user-facing error dialog exactly
when wrapping the GL context fails. -/
theorem GLW.init_dialog_eq (s : GLW.Viewer) (i : GLW.InitIn) :
    (GLW.initializeGL s i).2.any isDialog = !i.glCtxInitOk := by
  unfold GLW.initializeGL GLW.dumpGlInfo
  cases hok : i.glCtxInitOk <;> cases hw : s.window <;>
    simp [isDialog]

/-- Helper: every exit the surface-creation path requests is the abnormal
one. -/
theorem GLW.init_exit_eq (s : GLW.Viewer) (i : GLW.InitIn) :
    (GLW.initializeGL s i).2.any isExit = !i.glCtxInitOk := by
  unfold GLW.initializeGL GLW.dumpGlInfo
  cases hok : i.glCtxInitOk <;> cases hw : s.window <;>
    simp [isExit]

/-- Helper: in a paint callback with view and surface bound, an abnormal exit
is requested exactly when either the handle guard reran surface creation and
the GL-context wrap failed there, or the handles matched and the framebuffer
re-initialization failed. -/
theorem GLW.paint_fatal_eq (s : GLW.Viewer) (i : GLW.PaintIn) (w : NeutralWindow)
    (hv : s.viewExists = true) (hw : s.window = some w) :
    (GLW.paintGL s i).2.any isFatalExit =
      (if w.nativeHandle = i.nativeWin then !i.wrapOk else !i.glCtxInitOk) := by
  by_cases heq : w.nativeHandle = i.nativeWin
  · cases hwrap : i.wrapOk
    · simp only [GLW.paintGL, hv, hw, heq, if_pos rfl, hwrap]
      cases hfbo : s.fboExists <;> simp [isFatalExit]
    · simp only [GLW.paintGL, hv, hw, heq, if_pos rfl, hwrap]
      cases hfbo : s.fboExists <;>
        simp [isFatalExit, GLW.dumpGlInfo] <;>
        split <;> simp [isFatalExit] <;>
        rintro a x hx (rfl | rfl | rfl) <;> rfl
  · simp only [GLW.paintGL, hv, hw, if_neg heq]
    simp [isFatalExit, heq, GLW.init_fatal_eq, GLW.PaintIn.toInitIn]

/-- Helper: in a paint callback with view and surface bound, a user-facing
error dialog appears exactly when an abnormal exit is requested. -/
theorem GLW.paint_dialog_eq (s : GLW.Viewer) (i : GLW.PaintIn) (w : NeutralWindow)
    (hv : s.viewExists = true) (hw : s.window = some w) :
    (GLW.paintGL s i).2.any isDialog =
      (if w.nativeHandle = i.nativeWin then !i.wrapOk else !i.glCtxInitOk) := by
  by_cases heq : w.nativeHandle = i.nativeWin
  · cases hwrap : i.wrapOk
    · simp only [GLW.paintGL, hv, hw, heq, if_pos rfl, hwrap]
      cases hfbo : s.fboExists <;> simp [isDialog]
    · simp only [GLW.paintGL, hv, hw, heq, if_pos rfl, hwrap]
      cases hfbo : s.fboExists <;>
        simp [isDialog, GLW.dumpGlInfo] <;>
        split <;> simp [isDialog] <;>
        rintro a x hx (rfl | rfl | rfl) <;> rfl
  · simp only [GLW.paintGL, hv, hw, if_neg heq]
    simp [isDialog, heq, GLW.init_dialog_eq, GLW.PaintIn.toInitIn]

/-- Helper: in a paint callback with view and surface bound, every requested
exit is the abnormal one (normal quit never originates here). -/
theorem GLW.paint_exit_eq (s : GLW.Viewer) (i : GLW.PaintIn) (w : NeutralWindow)
    (hv : s.viewExists = true) (hw : s.window = some w) :
    (GLW.paintGL s i).2.any isExit =
      (if w.nativeHandle = i.nativeWin then !i.wrapOk else !i.glCtxInitOk) := by
  by_cases heq : w.nativeHandle = i.nativeWin
  · cases hwrap : i.wrapOk
    · simp only [GLW.paintGL, hv, hw, heq, if_pos rfl, hwrap]
      cases hfbo : s.fboExists <;> simp [isExit]
    · simp only [GLW.paintGL, hv, hw, heq, if_pos rfl, hwrap]
      cases hfbo : s.fboExists <;>
        simp [isExit, GLW.dumpGlInfo] <;>
        split <;> simp [isExit] <;>
        rintro a x hx (rfl | rfl | rfl) <;> rfl
  · simp only [GLW.paintGL, hv, hw, if_neg heq]
    simp [isExit, heq, GLW.init_exit_eq, GLW.PaintIn.toInitIn]

/-- Helper: a paint callback that requests an abnormal exit draws no frame. -/
theorem GLW.paint_fatal_no_draw (s : GLW.Viewer) (i : GLW.PaintIn) (w : NeutralWindow)
    (hv : s.viewExists = true) (hw : s.window = some w)
    (hfatal : (GLW.paintGL s i).2.any isFatalExit = true) :
    (GLW.paintGL s i).2.any isDraw = false := by
  by_cases heq : w.nativeHandle = i.nativeWin
  · have hwrap : i.wrapOk = false := by
      have := GLW.paint_fatal_eq s i w hv hw
      rw [hfatal, if_pos heq] at this
      cases h : i.wrapOk
      · rfl
      · rw [h] at this; exact absurd this.symm (by decide)
    simp only [GLW.paintGL, hv, hw, heq, if_pos rfl, hwrap]
    cases hfbo : s.fboExists <;> simp [isDraw]
  · simp only [GLW.paintGL, hv, hw, if_neg heq]
    simp [isDraw, GLW.initializeGL_no_draw]

/-- Claim C7: only two conditions in the surface-creation and paint paths are
fatal — GL-context wrap failure during surface creation (also when paint
reruns it after a handle change) and framebuffer re-initialization failure
during paint.  Each shows a user-facing error dialog and requests termination
with the abnormal exit code 1 (every exit requested in these paths is
abnormal), and no frame is drawn in that callback; under every other
condition these paths request no termination and show no dialog. -/
theorem C7_fatal_error_paths :
    (∀ (s : GLW.Viewer) (i : GLW.InitIn),
      ((GLW.initializeGL s i).2.any isFatalExit = true ↔ i.glCtxInitOk = false) ∧
      (GLW.initializeGL s i).2.any isDialog = (GLW.initializeGL s i).2.any isFatalExit ∧
      (GLW.initializeGL s i).2.any isExit = (GLW.initializeGL s i).2.any isFatalExit ∧
      (i.glCtxInitOk = false →
        Effect.appExit 1 ∈ (GLW.initializeGL s i).2 ∧
        (GLW.initializeGL s i).2.any isDraw = false)) ∧
    (∀ (s : GLW.Viewer) (i : GLW.PaintIn) (w : NeutralWindow),
      s.viewExists = true → s.window = some w →
      ((GLW.paintGL s i).2.any isFatalExit = true ↔
        ((w.nativeHandle ≠ i.nativeWin ∧ i.glCtxInitOk = false) ∨
         (w.nativeHandle = i.nativeWin ∧ i.wrapOk = false))) ∧
      (GLW.paintGL s i).2.any isDialog = (GLW.paintGL s i).2.any isFatalExit ∧
      (GLW.paintGL s i).2.any isExit = (GLW.paintGL s i).2.any isFatalExit ∧
      ((GLW.paintGL s i).2.any isFatalExit = true →
        (GLW.paintGL s i).2.any isDraw = false)) := by
  constructor
  · intro s i
    refine ⟨?_, ?_, ?_, ?_⟩
    · rw [GLW.init_fatal_eq]; cases h : i.glCtxInitOk <;> simp
    · rw [GLW.init_fatal_eq, GLW.init_dialog_eq]
    · rw [GLW.init_fatal_eq, GLW.init_exit_eq]
    · intro hfail
      constructor
      · unfold GLW.initializeGL
        simp [hfail]
      · exact GLW.initializeGL_no_draw s i
  · intro s i w hv hw
    refine ⟨?_, ?_, ?_, GLW.paint_fatal_no_draw s i w hv hw⟩
    · rw [GLW.paint_fatal_eq s i w hv hw]
      by_cases heq : w.nativeHandle = i.nativeWin <;>
        cases hwrap : i.wrapOk <;> cases hok : i.glCtxInitOk <;>
        simp [heq, hwrap, hok]
    · rw [GLW.paint_fatal_eq s i w hv hw, GLW.paint_dialog_eq s i w hv hw]
    · rw [GLW.paint_fatal_eq s i w hv hw, GLW.paint_exit_eq s i w hv hw]

/-- Claim C7 witness: concretely, a paint callback at the fresh bound state
whose framebuffer wrap fails (handle 7 matching, `wrapOk := false`) requests
exactly the abnormal exit and draws nothing, while a successful one requests
no exit; a surface-creation run whose GL-context wrap fails requests the
abnormal exit 1. -/
theorem C7_fatal_error_paths_witness :
    ((GLW.paintGL
        ⟨true, some ⟨true, 7, 800, 600⟩, [], 1, none, false, 0, 1, "", 1, 1⟩
        ⟨7, 800, 600, 1, true, "g", false, 800, 600, "g"⟩).2.any isFatalExit = true) ∧
    Effect.appExit 1 ∈
      (GLW.initializeGL GLW.initialViewer ⟨800, 600, 1, 7, false, "g"⟩).2 := by
  constructor
  · exact ((C7_fatal_error_paths.2
      ⟨true, some ⟨true, 7, 800, 600⟩, [], 1, none, false, 0, 1, "", 1, 1⟩
      ⟨7, 800, 600, 1, true, "g", false, 800, 600, "g"⟩
      ⟨true, 7, 800, 600⟩ rfl rfl).1).mpr (Or.inr ⟨rfl, rfl⟩)
  · exact ((C7_fatal_error_paths.1 GLW.initialViewer
      ⟨800, 600, 1, 7, false, "g"⟩).2.2.2 rfl).1

/-- The allocation invariant: the number of `new OcctQtFrameBuffer()` /
`new Aspect_NeutralWindow()` allocations performed so far is 1 or 0 according
to whether the (never-destroyed) instance currently exists. -/
def GLW.allocInv (s : GLW.Viewer) : Prop :=
  s.fboAllocs = (if s.fboExists = true then 1 else 0) ∧
  s.windowAllocs = (if s.window.isSome then 1 else 0)

/-- Helper: the surface-creation path preserves the allocation invariant. -/
theorem GLW.allocInv_init (s : GLW.Viewer) (i : GLW.InitIn)
    (h : GLW.allocInv s) : GLW.allocInv (GLW.initializeGL s i).1 := by
  obtain ⟨h1, h2⟩ := h
  unfold GLW.initializeGL GLW.dumpGlInfo
  cases hok : i.glCtxInitOk <;> cases hw : s.window <;>
    simp_all [GLW.allocInv]

/-- Helper: the paint callback preserves the allocation invariant. -/
theorem GLW.allocInv_paint (s : GLW.Viewer) (i : GLW.PaintIn)
    (h : GLW.allocInv s) : GLW.allocInv (GLW.paintGL s i).1 := by
  obtain ⟨h1, h2⟩ := h
  unfold GLW.paintGL
  cases hv : s.viewExists
  · exact ⟨h1, h2⟩
  · cases hw : s.window with
    | none => exact ⟨h1, h2⟩
    | some w =>
      by_cases heq : w.nativeHandle = i.nativeWin
      · cases hwrap : i.wrapOk
        · cases hfbo : s.fboExists <;>
            simp_all [GLW.allocInv]
        · cases hfbo : s.fboExists <;>
            simp_all [GLW.allocInv, GLW.dumpGlInfo] <;>
            split <;> simp_all
      · have := GLW.allocInv_init s i.toInitIn ⟨h1, h2⟩
        simp_all [GLW.allocInv]

/-- Helper: every callback preserves the allocation invariant. -/
theorem GLW.allocInv_step (s : GLW.Viewer) (c : GLW.Callback)
    (h : GLW.allocInv s) : GLW.allocInv (GLW.step s c).1 := by
  obtain ⟨h1, h2⟩ := h
  cases c with
  | init i => exact GLW.allocInv_init s i ⟨h1, h2⟩
  | paint i => exact GLW.allocInv_paint s i ⟨h1, h2⟩
  | keyPress i =>
      simp only [GLW.step, GLW.keyPressEvent]
      split
      · split <;> exact ⟨h1, h2⟩
      · exact ⟨h1, h2⟩
  | mousePress i =>
      simp only [GLW.step, GLW.mousePressEvent]
      split <;> exact ⟨h1, h2⟩
  | mouseRelease i =>
      simp only [GLW.step, GLW.mouseReleaseEvent]
      split <;> exact ⟨h1, h2⟩
  | mouseMove i =>
      simp only [GLW.step, GLW.mouseMoveEvent]
      split <;> exact ⟨h1, h2⟩
  | wheel i =>
      simp only [GLW.step, GLW.wheelEvent]
      split
      · split
        · exact ⟨h1, h2⟩
        · split
          · split <;> exact ⟨h1, h2⟩
          · exact ⟨h1, h2⟩
      · exact ⟨h1, h2⟩
  | split =>
      simp only [GLW.step, GLW.splitSubviews]
      split <;> exact ⟨h1, h2⟩

/-- Helper: the allocation invariant holds along any run of callbacks. -/
theorem GLW.allocInv_run (cbs : List GLW.Callback) (s : GLW.Viewer)
    (h : GLW.allocInv s) : GLW.allocInv (GLW.runCallbacks s cbs) := by
  induction cbs generalizing s with
  | nil => exact h
  | cons c cs ih => exact ih _ (GLW.allocInv_step s c h)

/-- Helper: when a surface object already exists, the surface-creation path
performs no window allocation and leaves the allocation counter unchanged. -/
theorem GLW.init_some_no_alloc (s : GLW.Viewer) (i : GLW.InitIn) (w : NeutralWindow)
    (hok : i.glCtxInitOk = true) (hw : s.window = some w) :
    Effect.allocWindow ∉ (GLW.initializeGL s i).2 ∧
    (GLW.initializeGL s i).1.windowAllocs = s.windowAllocs := by
  simp [GLW.initializeGL, GLW.dumpGlInfo, hok, hw]

/-- Helper: after a successful or failed-but-rerunnable surface-creation run
with a working GL context, a surface object exists. -/
theorem GLW.init_window_isSome (s : GLW.Viewer) (i : GLW.InitIn)
    (hok : i.glCtxInitOk = true) :
    ∃ w', (GLW.initializeGL s i).1.window = some w' := by
  cases hw : s.window <;> simp [GLW.initializeGL, GLW.dumpGlInfo, hok, hw]

/-- Claim C2: at most one wrapped framebuffer and one neutral-window object
ever exist in a session — along any callback sequence from the
post-construction state, at most one allocation of each is ever performed;
running the surface-initialization path twice in a row reuses the existing
surface object (no second window allocation); and a paint callback on a
session whose framebuffer already exists performs no framebuffer or window
allocation but still runs the existing instance's re-initialization path
(`InitWrapper`), while any paint callback with matching handle leaves the
session with the framebuffer existing and the surface object in place, so
the next paint reuses both. -/
theorem C2_single_instances :
    (∀ cbs : List GLW.Callback,
      (GLW.runCallbacks GLW.initialViewer cbs).fboAllocs ≤ 1 ∧
      (GLW.runCallbacks GLW.initialViewer cbs).windowAllocs ≤ 1) ∧
    (∀ (s : GLW.Viewer) (i j : GLW.InitIn),
      i.glCtxInitOk = true → j.glCtxInitOk = true →
      Effect.allocWindow ∉ (GLW.initializeGL (GLW.initializeGL s i).1 j).2 ∧
      (GLW.initializeGL (GLW.initializeGL s i).1 j).1.windowAllocs =
        (GLW.initializeGL s i).1.windowAllocs) ∧
    (∀ (s : GLW.Viewer) (i : GLW.PaintIn) (w : NeutralWindow),
      s.viewExists = true → s.window = some w → w.nativeHandle = i.nativeWin →
      s.fboExists = true →
      Effect.allocFbo ∉ (GLW.paintGL s i).2 ∧
      Effect.allocWindow ∉ (GLW.paintGL s i).2 ∧
      (GLW.paintGL s i).1.fboAllocs = s.fboAllocs ∧
      Effect.fboInitWrapper ∈ (GLW.paintGL s i).2) ∧
    (∀ (s : GLW.Viewer) (i : GLW.PaintIn) (w : NeutralWindow),
      s.viewExists = true → s.window = some w → w.nativeHandle = i.nativeWin →
      (GLW.paintGL s i).1.fboExists = true ∧
      (GLW.paintGL s i).1.viewExists = true ∧
      ∃ w', (GLW.paintGL s i).1.window = some w' ∧
        w'.nativeHandle = w.nativeHandle) := by
  refine ⟨?_, ?_, ?_, ?_⟩
  · intro cbs
    have h := GLW.allocInv_run cbs GLW.initialViewer (by constructor <;> rfl)
    obtain ⟨h1, h2⟩ := h
    constructor
    · rw [h1]; split <;> norm_num
    · rw [h2]; split <;> norm_num
  · intro s i j hi hj
    obtain ⟨w', hw'⟩ := GLW.init_window_isSome s i hi
    exact GLW.init_some_no_alloc _ j w' hj hw'
  · intro s i w hv hw heq hfbo
    simp only [GLW.paintGL, hv, hw, heq, if_pos rfl, hfbo]
    cases hwrap : i.wrapOk <;> simp [GLW.dumpGlInfo]
    split <;> simp
  · intro s i w hv hw heq
    simp only [GLW.paintGL, hv, hw, heq, if_pos rfl]
    cases hwrap : i.wrapOk <;> cases hfbo : s.fboExists <;>
      simp [GLW.dumpGlInfo, heq] <;> (try split) <;> simp_all

/-- Claim C2 witness: the bound instantiated on the concrete run
[first paint (handle 7), second paint (handle 7)] from the fresh session
after a first surface creation; and the idempotence parts at concrete
inputs. -/
theorem C2_single_instances_witness :
    ((GLW.runCallbacks GLW.initialViewer
        [GLW.Callback.init ⟨800, 600, 1, 7, true, "g"⟩,
         GLW.Callback.paint ⟨7, 800, 600, 1, true, "g", true, 800, 600, "g"⟩,
         GLW.Callback.paint ⟨7, 800, 600, 1, true, "g", true, 800, 600, "g"⟩]).fboAllocs ≤ 1) ∧
    Effect.allocWindow ∉
      (GLW.initializeGL
        (GLW.initializeGL GLW.initialViewer ⟨800, 600, 1, 7, true, "g"⟩).1
        ⟨800, 600, 1, 7, true, "g"⟩).2 ∧
    Effect.fboInitWrapper ∈
      (GLW.paintGL
        ⟨true, some ⟨true, 7, 800, 600⟩, [], 1, none, true, 1, 1, "", 1, 1⟩
        ⟨7, 800, 600, 1, true, "g", true, 800, 600, "g"⟩).2 := by
  refine ⟨(C2_single_instances.1 _).1, ?_, ?_⟩
  · exact (C2_single_instances.2.1 GLW.initialViewer
      ⟨800, 600, 1, 7, true, "g"⟩ ⟨800, 600, 1, 7, true, "g"⟩ rfl rfl).1
  · exact (C2_single_instances.2.2.1
      ⟨true, some ⟨true, 7, 800, 600⟩, [], 1, none, true, 1, 1, "", 1, 1⟩
      ⟨7, 800, 600, 1, true, "g", true, 800, 600, "g"⟩
      ⟨true, 7, 800, 600⟩ rfl rfl rfl rfl).2.2.2

/-- Claim C3 counterexample: the claim asserts that after the next paint
callback the surface's recorded size equals the host's actual device-pixel
size; but `OcctQWidgetViewer::paintEvent` records the widget's logical
rectangle size without applying the device-pixel ratio.  Concretely, with the
widget resized to logical 300×200 on a display with device-pixel ratio 2
(actual device-pixel size 600×400, per the spec's own definition of the
ratio), the paint callback records 300×200. -/
theorem C3_qwidget_size_counterexample :
    ((QW.paintEvent
        ⟨true, some ⟨true, 7, 100, 50⟩, [], none, 1, "", 1, 1⟩
        ⟨7, 300, 200, "g", "g"⟩).1.window.map
          (fun w => (w.width, w.height))) = some (300, 200) ∧
    spec_devicePixelSize 300 200 2 = (600, 400) ∧
    some ((300 : Int), (200 : Int)) ≠ some ((600 : Int), (400 : Int)) := by
  decide

/-- Claim C3 (amended): after a paint callback with view and surface bound
and matching handle, the surface's recorded size equals the size the variant
actually measures — in the `QOpenGLWidget` variant the wrapped framebuffer's
actual viewport size (which is the host's device-pixel size), in the
`QWidget` variant the widget's logical rectangle size, NOT scaled by the
device-pixel ratio.  In both variants, whenever the measured size differs
from the recorded one, the recorded size is updated, the primary view and
every sub-view are marked as needing re-layout and invalidated, and the
diagnostic info is re-derived (stored in `myGlInfo`) without being logged;
when the sizes agree no re-layout mark is issued. -/
theorem C3_resize_sync_amended :
    (∀ (s : GLW.Viewer) (i : GLW.PaintIn) (w : NeutralWindow),
      s.viewExists = true → s.window = some w →
      w.nativeHandle = i.nativeWin → i.wrapOk = true →
      (GLW.paintGL s i).1.window =
        some { w with width := i.fboVPW, height := i.fboVPH } ∧
      (¬(i.fboVPW = w.width ∧ i.fboVPH = w.height) →
        Effect.mustBeResized 0 ∈ (GLW.paintGL s i).2 ∧
        Effect.invalidate 0 ∈ (GLW.paintGL s i).2 ∧
        (∀ vid ∈ s.subviews,
          Effect.mustBeResized vid ∈ (GLW.paintGL s i).2 ∧
          Effect.invalidate vid ∈ (GLW.paintGL s i).2) ∧
        Effect.diagInfoQuery true ∈ (GLW.paintGL s i).2 ∧
        (GLW.paintGL s i).2.any isInfoLog = false ∧
        (GLW.paintGL s i).1.glInfo = i.diagInfo) ∧
      ((i.fboVPW = w.width ∧ i.fboVPH = w.height) →
        (GLW.paintGL s i).2.any isResizeMark = false)) ∧
    (∀ (s : QW.Viewer) (i : QW.PaintIn) (w : NeutralWindow),
      s.viewExists = true → s.window = some w →
      w.nativeHandle = i.nativeWin →
      (QW.paintEvent s i).1.window =
        some { w with width := i.rectW, height := i.rectH } ∧
      (¬(i.rectW = w.width ∧ i.rectH = w.height) →
        Effect.mustBeResized 0 ∈ (QW.paintEvent s i).2 ∧
        Effect.invalidate 0 ∈ (QW.paintEvent s i).2 ∧
        (∀ vid ∈ s.subviews,
          Effect.mustBeResized vid ∈ (QW.paintEvent s i).2 ∧
          Effect.invalidate vid ∈ (QW.paintEvent s i).2) ∧
        Effect.diagInfoQuery true ∈ (QW.paintEvent s i).2 ∧
        (QW.paintEvent s i).2.any isInfoLog = false ∧
        (QW.paintEvent s i).1.glInfo = i.diagInfo) ∧
      ((i.rectW = w.width ∧ i.rectH = w.height) →
        (QW.paintEvent s i).2.any isResizeMark = false)) := by
  constructor
  · intro s i w hv hw heq hwrap
    by_cases hsz : i.fboVPW = w.width ∧ i.fboVPH = w.height
    · simp only [GLW.paintGL, hv, hw, heq, if_pos rfl, hwrap, if_pos hsz]
      refine ⟨?_, fun hne => absurd hsz hne, fun _ => ?_⟩
      · obtain ⟨hW, hH⟩ := hsz
        cases hfbo : s.fboExists <;> simp [hW, hH, ← heq]
      · cases hfbo : s.fboExists <;> simp [isResizeMark]
    · simp only [GLW.paintGL, hv, hw, heq, if_pos rfl, hwrap, if_neg hsz,
        GLW.dumpGlInfo]
      refine ⟨?_, fun _ => ⟨?_, ?_, ?_, ?_, ?_, ?_⟩, fun hsz2 => absurd hsz2 hsz⟩
      · cases hfbo : s.fboExists <;> simp
      · cases hfbo : s.fboExists <;> simp
      · cases hfbo : s.fboExists <;> simp
      · intro vid hvid
        cases hfbo : s.fboExists <;>
          constructor <;> simp [List.mem_flatMap] <;> tauto
      · cases hfbo : s.fboExists <;> simp
      · cases hfbo : s.fboExists <;> simp [isInfoLog]
      · cases hfbo : s.fboExists <;> simp
  · intro s i w hv hw heq
    by_cases hsz : i.rectW = w.width ∧ i.rectH = w.height
    · simp only [QW.paintEvent, hv, hw, heq, if_pos rfl, if_pos hsz]
      refine ⟨?_, fun hne => absurd hsz hne, fun _ => ?_⟩
      · obtain ⟨hW, hH⟩ := hsz
        simp [hW, hH, ← heq, hw]
      · simp [isResizeMark]
    · simp only [QW.paintEvent, hv, hw, heq, if_pos rfl, if_neg hsz,
        QW.dumpGlInfo]
      refine ⟨by simp, fun _ => ⟨by simp, by simp, ?_, by simp, ?_, by simp⟩,
        fun hsz2 => absurd hsz2 hsz⟩
      · intro vid hvid
        constructor <;> simp [List.mem_flatMap] <;> tauto
      · simp [isInfoLog]

/-- Claim C3 witness: the amended theorem applied concretely — a
`QOpenGLWidget`-variant paint at recorded size 800×600 with actual
framebuffer viewport 1000×700 updates the recorded size to 1000×700 and
marks the primary view for re-layout; the `QWidget` variant at recorded
100×50 with logical rectangle 300×200 records 300×200. -/
theorem C3_resize_sync_amended_witness :
    (GLW.paintGL
        ⟨true, some ⟨true, 7, 800, 600⟩, [], 1, none, true, 1, 1, "", 1, 1⟩
        ⟨7, 800, 600, 1, true, "g", true, 1000, 700, "d"⟩).1.window =
      some ⟨true, 7, 1000, 700⟩ ∧
    Effect.mustBeResized 0 ∈
      (GLW.paintGL
        ⟨true, some ⟨true, 7, 800, 600⟩, [], 1, none, true, 1, 1, "", 1, 1⟩
        ⟨7, 800, 600, 1, true, "g", true, 1000, 700, "d"⟩).2 ∧
    (QW.paintEvent
        ⟨true, some ⟨true, 7, 100, 50⟩, [], none, 1, "", 1, 1⟩
        ⟨7, 300, 200, "g", "d"⟩).1.window = some ⟨true, 7, 300, 200⟩ := by
  have h1 := (C3_resize_sync_amended.1
    ⟨true, some ⟨true, 7, 800, 600⟩, [], 1, none, true, 1, 1, "", 1, 1⟩
    ⟨7, 800, 600, 1, true, "g", true, 1000, 700, "d"⟩
    ⟨true, 7, 800, 600⟩ rfl rfl rfl rfl)
  have h2 := (C3_resize_sync_amended.2
    ⟨true, some ⟨true, 7, 100, 50⟩, [], none, 1, "", 1, 1⟩
    ⟨7, 300, 200, "g", "d"⟩ ⟨true, 7, 100, 50⟩ rfl rfl rfl)
  exact ⟨h1.1, (h1.2.1 (by decide)).1, h2.1⟩

/-- Claim C4: at most one view is the focused input target at any time (the
focus is a single optional handle).  When sub-views exist, a wheel event
whose scaled position picks a sub-view different from the currently focused
one switches focus to it, applies no zoom that event, and requests a repaint;
a wheel event picking the currently focused sub-view leaves the focus
unchanged, forwards the scroll as a zoom-about-point update at the scaled
position, and requests a repaint exactly when the renderer reports a state
change. -/
theorem C4_wheel_focus :
    ∀ (s : GLW.Viewer) (i : GLW.WheelIn) (v : Nat),
      s.viewExists = true → s.subviews ≠ [] →
      ((GLW.wheelEvent s i).1.focusView.toList.length ≤ 1) ∧
      (i.pickResult = some v → s.focusView ≠ some v →
        (GLW.wheelEvent s i).1 = { s with focusView := some v } ∧
        (GLW.wheelEvent s i).2 =
          [Effect.qtBaseWheelHandler,
           Effect.pickSubviewCall (i.posX * i.pixelRatio) (i.posY * i.pixelRatio),
           Effect.requestUpdate] ∧
        (GLW.wheelEvent s i).2.any isZoom = false ∧
        Effect.requestUpdate ∈ (GLW.wheelEvent s i).2) ∧
      (i.pickResult = some v → s.focusView = some v →
        (GLW.wheelEvent s i).1 = s ∧
        Effect.updZoom (i.posX * i.pixelRatio) (i.posY * i.pixelRatio)
          i.angleDeltaY ∈ (GLW.wheelEvent s i).2 ∧
        (Effect.requestUpdate ∈ (GLW.wheelEvent s i).2 ↔ i.zoomChanged = true)) := by
  intro s i v hv hs
  refine ⟨?_, ?_, ?_⟩
  · cases h : (GLW.wheelEvent s i).1.focusView <;> simp [Option.toList]
  · intro hpick hne
    simp only [GLW.wheelEvent, hv, if_pos rfl, if_neg hs, hpick]
    simp [hne, isZoom]
  · intro hpick hfoc
    simp only [GLW.wheelEvent, hv, if_pos rfl, if_neg hs, hpick]
    cases hz : i.zoomChanged <;> simp [hfoc, hz]

/-- Claim C4 witness: applied at the concrete two-sub-view session (sub-views
1 and 2, focus on 1): a wheel at logical (10, 10), ratio 1, picking sub-view
2 switches focus to 2 with a repaint and no zoom; a wheel picking the focused
sub-view 1 keeps focus and forwards the zoom, with a repaint since the
renderer reported a change. -/
theorem C4_wheel_focus_witness :
    (GLW.wheelEvent
        ⟨true, some ⟨true, 7, 800, 600⟩, [1, 2], 3, some 1, true, 1, 1, "", 1, 1⟩
        ⟨10, 10, 1, 120, some 2, true⟩).1.focusView = some 2 ∧
    (GLW.wheelEvent
        ⟨true, some ⟨true, 7, 800, 600⟩, [1, 2], 3, some 1, true, 1, 1, "", 1, 1⟩
        ⟨10, 10, 1, 120, some 2, true⟩).2.any isZoom = false ∧
    (GLW.wheelEvent
        ⟨true, some ⟨true, 7, 800, 600⟩, [1, 2], 3, some 1, true, 1, 1, "", 1, 1⟩
        ⟨10, 10, 1, 120, some 1, true⟩).1.focusView = some 1 ∧
    Effect.updZoom 10 10 120 ∈
      (GLW.wheelEvent
        ⟨true, some ⟨true, 7, 800, 600⟩, [1, 2], 3, some 1, true, 1, 1, "", 1, 1⟩
        ⟨10, 10, 1, 120, some 1, true⟩).2 := by
  have h1 := C4_wheel_focus
    ⟨true, some ⟨true, 7, 800, 600⟩, [1, 2], 3, some 1, true, 1, 1, "", 1, 1⟩
    ⟨10, 10, 1, 120, some 2, true⟩ 2 rfl (by decide)
  have h2 := C4_wheel_focus
    ⟨true, some ⟨true, 7, 800, 600⟩, [1, 2], 3, some 1, true, 1, 1, "", 1, 1⟩
    ⟨10, 10, 1, 120, some 1, true⟩ 1 rfl (by decide)
  obtain ⟨hsw, hefl, hnz, hupd⟩ := h1.2.1 rfl (by decide)
  obtain ⟨hkeep, hzoom, hiff⟩ := h2.2.2 rfl rfl
  refine ⟨?_, hnz, ?_, by simpa using hzoom⟩
  · rw [hsw]
  · rw [hkeep]

/-- Claim C8: for every key-press delivered while the view exists, in both
variants: Escape requests application exit (normal code 0) exactly once,
independently of the held-modifier mask; F triggers fit-all-visible-content
with margin 0.01 (= 1/100, with no eager update) followed by a repaint
request; every other key is handed to the host toolkit's default handler. -/
theorem C8_key_behavior :
    ∀ (s : GLW.Viewer) (q : QW.Viewer) (i : GLW.KeyIn),
      (s.viewExists = true →
        (i.key = qtKeyEscape →
          GLW.keyPressEvent s i = (s, [Effect.appExit 0]) ∧
          countExitRequests (GLW.keyPressEvent s i).2 = 1 ∧
          (∀ m : Nat, GLW.keyPressEvent s ⟨i.key, m⟩ = GLW.keyPressEvent s i)) ∧
        (i.key = qtKeyF →
          GLW.keyPressEvent s i =
            (s, [Effect.fitAll 1 100 false, Effect.requestUpdate])) ∧
        (i.key ≠ qtKeyEscape → i.key ≠ qtKeyF →
          GLW.keyPressEvent s i = (s, [Effect.qtBaseKeyHandler]))) ∧
      (q.viewExists = true →
        (i.key = qtKeyEscape →
          QW.keyPressEvent q i = (q, [Effect.appExit 0]) ∧
          countExitRequests (QW.keyPressEvent q i).2 = 1 ∧
          (∀ m : Nat, QW.keyPressEvent q ⟨i.key, m⟩ = QW.keyPressEvent q i)) ∧
        (i.key = qtKeyF →
          QW.keyPressEvent q i =
            (q, [Effect.fitAll 1 100 false, Effect.requestUpdate])) ∧
        (i.key ≠ qtKeyEscape → i.key ≠ qtKeyF →
          QW.keyPressEvent q i = (q, [Effect.qtBaseKeyHandler]))) := by
  intro s q i
  constructor
  · intro hv
    refine ⟨fun hesc => ⟨?_, ?_, fun m => ?_⟩, fun hf => ?_, fun hne hnf => ?_⟩
    · simp [GLW.keyPressEvent, qtKey2VKey, hv, hesc]
    · simp [GLW.keyPressEvent, qtKey2VKey, hv, hesc, countExitRequests, isExit]
    · simp [GLW.keyPressEvent, qtKey2VKey, hv]
    · simp [GLW.keyPressEvent, qtKey2VKey, hv, hf, qtKeyF, qtKeyEscape]
    · simp [GLW.keyPressEvent, qtKey2VKey, hv, hne, hnf]
  · intro hv
    refine ⟨fun hesc => ⟨?_, ?_, fun m => ?_⟩, fun hf => ?_, fun hne hnf => ?_⟩
    · simp [QW.keyPressEvent, qtKey2VKey, hv, hesc]
    · simp [QW.keyPressEvent, qtKey2VKey, hv, hesc, countExitRequests, isExit]
    · simp [QW.keyPressEvent, qtKey2VKey, hv]
    · simp [QW.keyPressEvent, qtKey2VKey, hv, hf, qtKeyF, qtKeyEscape]
    · simp [QW.keyPressEvent, qtKey2VKey, hv, hne, hnf]

/-- Claim C8 witness: Escape (code 0x01000000) with modifier mask 0 and with
mask 7 both produce exactly one exit request at the concrete session, and F
(0x46) produces the fit-all with margin 1/100 plus a repaint. -/
theorem C8_key_behavior_witness :
    countExitRequests (GLW.keyPressEvent GLW.initialViewer ⟨0x01000000, 0⟩).2 = 1 ∧
    GLW.keyPressEvent GLW.initialViewer ⟨0x01000000, 7⟩ =
      GLW.keyPressEvent GLW.initialViewer ⟨0x01000000, 0⟩ ∧
    GLW.keyPressEvent GLW.initialViewer ⟨0x46, 0⟩ =
      (GLW.initialViewer, [Effect.fitAll 1 100 false, Effect.requestUpdate]) := by
  have h := (C8_key_behavior GLW.initialViewer
    ⟨true, none, [], none, 0, "", 0, 0⟩ ⟨0x01000000, 0⟩).1 rfl
  have hf := (C8_key_behavior GLW.initialViewer
    ⟨true, none, [], none, 0, "", 0, 0⟩ ⟨0x46, 0⟩).1 rfl
  obtain ⟨hesc1, hesc2, hescm⟩ := h.1 rfl
  exact ⟨hesc2, hescm 7, hf.2.1 rfl⟩

/-- Claim C9 counterexample: the claim asserts every pointer event forwards
the logical position scaled by the device-pixel ratio; but in the `QWidget`
variant a press at logical (3, 4) on a display with ratio 2 forwards (3, 4)
to `UpdateMouseButtons`, not the scaled (6, 8). -/
theorem C9_qwidget_unscaled_counterexample :
    forwardedPositions (QW.mousePressEvent
      ⟨true, some ⟨true, 7, 100, 50⟩, [], none, 1, "", 1, 1⟩
      ⟨3, 4, 2, 1, 0, true⟩).2 = [(3, 4)] ∧
    spec_scaledPos 3 4 2 = (6, 8) ∧
    ((3 : Int), (4 : Int)) ≠ ((6 : Int), (8 : Int)) := by
  decide

/-- Claim C9 (amended): for every pointer press, release, and move event
delivered while the view exists, the renderer's button/position update entry
point receives the toolkit-reported logical position scaled by the
device-pixel ratio in the `QOpenGLWidget` variant, and the unscaled logical
position in the `QWidget` variant (which never reads the ratio); in both
variants the translated held buttons and modifiers are forwarded with it,
and a repaint is requested if and only if the renderer reports that the
update changed rendering state. -/
theorem C9_pointer_forwarding_amended :
    ∀ (s : GLW.Viewer) (q : QW.Viewer) (i : GLW.MouseIn),
      (s.viewExists = true →
        (forwardedPositions (GLW.mousePressEvent s i).2 =
            [spec_scaledPos i.posX i.posY i.pixelRatio] ∧
          Effect.updMouseButtons (i.posX * i.pixelRatio) (i.posY * i.pixelRatio)
            (qtMouseButtons2VKeys i.buttons) (qtMouseModifiers2VKeys i.modifiers)
            false ∈ (GLW.mousePressEvent s i).2 ∧
          (Effect.requestUpdate ∈ (GLW.mousePressEvent s i).2 ↔
            i.updAccepted = true)) ∧
        (forwardedPositions (GLW.mouseReleaseEvent s i).2 =
            [spec_scaledPos i.posX i.posY i.pixelRatio] ∧
          (Effect.requestUpdate ∈ (GLW.mouseReleaseEvent s i).2 ↔
            i.updAccepted = true)) ∧
        (forwardedPositions (GLW.mouseMoveEvent s i).2 =
            [spec_scaledPos i.posX i.posY i.pixelRatio] ∧
          Effect.updMousePosition (i.posX * i.pixelRatio) (i.posY * i.pixelRatio)
            (qtMouseButtons2VKeys i.buttons) (qtMouseModifiers2VKeys i.modifiers)
            false ∈ (GLW.mouseMoveEvent s i).2 ∧
          (Effect.requestUpdate ∈ (GLW.mouseMoveEvent s i).2 ↔
            i.updAccepted = true))) ∧
      (q.viewExists = true →
        (forwardedPositions (QW.mousePressEvent q i).2 = [(i.posX, i.posY)] ∧
          Effect.updMouseButtons i.posX i.posY
            (qtMouseButtons2VKeys i.buttons) (qtMouseModifiers2VKeys i.modifiers)
            false ∈ (QW.mousePressEvent q i).2 ∧
          (Effect.requestUpdate ∈ (QW.mousePressEvent q i).2 ↔
            i.updAccepted = true)) ∧
        (forwardedPositions (QW.mouseReleaseEvent q i).2 = [(i.posX, i.posY)] ∧
          (Effect.requestUpdate ∈ (QW.mouseReleaseEvent q i).2 ↔
            i.updAccepted = true)) ∧
        (forwardedPositions (QW.mouseMoveEvent q i).2 = [(i.posX, i.posY)] ∧
          Effect.updMousePosition i.posX i.posY
            (qtMouseButtons2VKeys i.buttons) (qtMouseModifiers2VKeys i.modifiers)
            false ∈ (QW.mouseMoveEvent q i).2 ∧
          (Effect.requestUpdate ∈ (QW.mouseMoveEvent q i).2 ↔
            i.updAccepted = true))) := by
  intro s q i
  constructor
  · intro hv
    cases hacc : i.updAccepted <;>
      simp [GLW.mousePressEvent, GLW.mouseReleaseEvent, GLW.mouseMoveEvent,
        forwardedPositions, spec_scaledPos, hv, hacc]
  · intro hv
    cases hacc : i.updAccepted <;>
      simp [QW.mousePressEvent, QW.mouseReleaseEvent, QW.mouseMoveEvent,
        forwardedPositions, hv, hacc]

/-- Claim C9 witness: the amended theorem at a concrete press — logical
(3, 4), ratio 2, left button, no modifiers, renderer reporting a change:
the `QOpenGLWidget` variant forwards (6, 8) and requests a repaint, the
`QWidget` variant forwards (3, 4). -/
theorem C9_pointer_forwarding_amended_witness :
    forwardedPositions (GLW.mousePressEvent GLW.initialViewer
      ⟨3, 4, 2, 1, 0, true⟩).2 = [(6, 8)] ∧
    Effect.requestUpdate ∈ (GLW.mousePressEvent GLW.initialViewer
      ⟨3, 4, 2, 1, 0, true⟩).2 ∧
    forwardedPositions (QW.mousePressEvent
      ⟨true, some ⟨true, 7, 100, 50⟩, [], none, 1, "", 1, 1⟩
      ⟨3, 4, 2, 1, 0, true⟩).2 = [(3, 4)] := by
  have h := C9_pointer_forwarding_amended GLW.initialViewer
    ⟨true, some ⟨true, 7, 100, 50⟩, [], none, 1, "", 1, 1⟩
    ⟨3, 4, 2, 1, 0, true⟩
  obtain ⟨hg, hq⟩ := h
  obtain ⟨⟨hp1, hp2, hp3⟩, hrest⟩ := hg rfl
  obtain ⟨⟨hq1, hq2, hq3⟩, hqrest⟩ := hq rfl
  exact ⟨by simpa [spec_scaledPos] using hp1, hp3.mpr rfl, hq1⟩

/-- Claim C10 counterexample: the claim concludes that any event delivered
before first-paint surface initialization completes is a no-op; but the view
handle is created in the constructor, so at the post-construction state
(before any paint, `window = none`) a concrete mouse press already invokes a
renderer entry point (`UpdateMouseButtons`). -/
theorem C10_pre_paint_event_not_noop :
    (GLW.mousePressEvent GLW.initialViewer ⟨3, 4, 1, 1, 0, true⟩).2.any
      isRendererCall = true ∧
    GLW.initialViewer.window = none := by
  decide

/-- Claim C10 (amended): every key, mouse-press, mouse-release, mouse-move
and wheel handler leaves the session state unchanged and invokes no renderer
entry point when the view handle is null, and the paint callback of either
variant is a no-op whenever no surface object is bound; however, the view
handle is non-null from construction onward, so input events delivered
before first-paint surface initialization are processed normally (a mouse
press already reaches a renderer entry point) — only the paint callback is a
no-op in that window of time. -/
theorem C10_null_guards_amended :
    (∀ (s : GLW.Viewer) (i : GLW.KeyIn), s.viewExists = false →
      GLW.keyPressEvent s i = (s, [])) ∧
    (∀ (s : GLW.Viewer) (i : GLW.MouseIn), s.viewExists = false →
      (GLW.mousePressEvent s i).1 = s ∧
      (GLW.mousePressEvent s i).2.any isRendererCall = false ∧
      (GLW.mouseReleaseEvent s i).1 = s ∧
      (GLW.mouseReleaseEvent s i).2.any isRendererCall = false ∧
      (GLW.mouseMoveEvent s i).1 = s ∧
      (GLW.mouseMoveEvent s i).2.any isRendererCall = false) ∧
    (∀ (s : GLW.Viewer) (i : GLW.WheelIn), s.viewExists = false →
      (GLW.wheelEvent s i).1 = s ∧
      (GLW.wheelEvent s i).2.any isRendererCall = false) ∧
    (∀ (s : GLW.Viewer) (i : GLW.PaintIn), s.window = none →
      GLW.paintGL s i = (s, [])) ∧
    (∀ (q : QW.Viewer) (i : QW.PaintIn), q.window = none →
      QW.paintEvent q i = (q, [])) ∧
    (GLW.initialViewer.viewExists = true ∧ GLW.initialViewer.window = none) ∧
    (∀ i : GLW.MouseIn,
      (GLW.mousePressEvent GLW.initialViewer i).2.any isRendererCall = true) ∧
    (∀ i : GLW.PaintIn,
      GLW.paintGL GLW.initialViewer i = (GLW.initialViewer, [])) := by
  refine ⟨?_, ?_, ?_, ?_, ?_, ⟨rfl, rfl⟩, ?_, ?_⟩
  · intro s i hv
    simp [GLW.keyPressEvent, hv]
  · intro s i hv
    simp [GLW.mousePressEvent, GLW.mouseReleaseEvent, GLW.mouseMoveEvent,
      isRendererCall, hv]
  · intro s i hv
    simp [GLW.wheelEvent, isRendererCall, hv]
  · intro s i hw
    cases hv : s.viewExists <;> simp [GLW.paintGL, hv, hw]
  · intro q i hw
    cases hv : q.viewExists <;> simp [QW.paintEvent, hv, hw]
  · intro i
    simp [GLW.mousePressEvent, GLW.initialViewer, isRendererCall]
  · intro i
    simp [GLW.paintGL, GLW.initialViewer]

/-- Claim C10 witness: the amended theorem at concrete inputs — a key press
on a torn-down session (view handle null) does nothing; the paint callback
at the fresh post-construction state (no window yet) is a no-op. -/
theorem C10_null_guards_amended_witness :
    GLW.keyPressEvent
      ⟨false, none, [], 1, none, false, 0, 0, "", 0, 0⟩ ⟨0x46, 0⟩ =
      (⟨false, none, [], 1, none, false, 0, 0, "", 0, 0⟩, []) ∧
    GLW.paintGL GLW.initialViewer ⟨7, 800, 600, 1, true, "g", true, 800, 600, "g"⟩ =
      (GLW.initialViewer, []) := by
  exact ⟨C10_null_guards_amended.1 _ ⟨0x46, 0⟩ rfl,
    C10_null_guards_amended.2.2.2.2.2.2.2 ⟨7, 800, 600, 1, true, "g", true, 800, 600, "g"⟩⟩

end OcctSamples
